import Mathlib

/-
Verification of the BugBoy Python demo web service (app.py, services.py,
models.py, utils.py) via a shallow embedding in Lean 4.

Python values that routes serialise with jsonify are embedded as the
inductive `Json` below.  Exceptions are embedded as `PyExc` (an exception
kind together with its str(e) message).  Fallible Python code is embedded
as `Except PyExc _`.  The in-memory sample database seeded by
services._seed_data is embedded as concrete Lean values.
-/

set_option maxRecDepth 4096

namespace BugBoy

/-- JSON-serialisable Python values (dicts keep insertion order, as in
CPython, so objects are association lists). -/
inductive Json where
  | null
  | bool (b : Bool)
  | int (n : Int)
  | num (q : Rat)
  | str (s : String)
  | arr (xs : List Json)
  | obj (fields : List (String × Json))

/-- The exception classes raised by the application. -/
inductive ExcKind where
  | typeError
  | keyError
  | attributeError
  | zeroDivisionError
  | indexError
  | fileNotFoundError
  | jsonDecodeError
  | unicodeDecodeError
  | recursionError
  | connectionError
  | valueError
  | permissionError
  | timeoutError
  | memoryError
  deriving DecidableEq

/-- Embedding of type(e).__name__ for each exception class. -/
def ExcKind.name : ExcKind → String
  | .typeError => "TypeError"
  | .keyError => "KeyError"
  | .attributeError => "AttributeError"
  | .zeroDivisionError => "ZeroDivisionError"
  | .indexError => "IndexError"
  | .fileNotFoundError => "FileNotFoundError"
  | .jsonDecodeError => "JSONDecodeError"
  | .unicodeDecodeError => "UnicodeDecodeError"
  | .recursionError => "RecursionError"
  | .connectionError => "ConnectionError"
  | .valueError => "ValueError"
  | .permissionError => "PermissionError"
  | .timeoutError => "TimeoutError"
  | .memoryError => "MemoryError"

/-- A Python exception: its class together with str(e). -/
structure PyExc where
  kind : ExcKind
  msg : String

/-- An HTTP response: status code and JSON body. -/
structure Response where
  status : Nat
  body : Json

/-- Embedding of app.py handle_exception (lines 398-408): the
@app.errorhandler(Exception) catch-all.  The bugstack.capture_exception
call and the logger call are external effects with no bearing on the
response; the traceback string produced by traceback.format_exc() is
passed in as `tb`. -/
def handle_exception (e : PyExc) (tb : String) : Response :=
  ⟨500, Json.obj [("error", Json.str e.kind.name),
                  ("message", Json.str e.msg),
                  ("traceback", Json.str tb)]⟩

/-- Flask dispatch around one route handler: a handler that returns a value
is serialised by jsonify with status 200, and an exception that propagates
out of the handler reaches handle_exception. -/
def runRoute (h : Except PyExc Json) (tb : String) : Response :=
  match h with
  | .ok j => ⟨200, j⟩
  | .error e => handle_exception e tb

/-- True exactly on an exception result. -/
def isErrorExc (r : Except PyExc Json) : Bool :=
  match r with
  | .error _ => true
  | .ok _ => false

/-
Embedding of json.loads (the CPython stdlib parser used by
models.APIResponse.json).  A recursive-descent parser over the character
list, fuelled so that recursion is structural; error positions and message
texts of the stdlib are abstracted to fixed messages, only the raised
exception class matters to the application.
-/

/-- Skip JSON whitespace. -/
def skipWs : List Char → List Char
  | [] => []
  | c :: cs =>
    if c = ' ' ∨ c = '\n' ∨ c = '\t' ∨ c = '\r' then skipWs cs else c :: cs

/-- Consume the body of a JSON string after the opening quote, returning the
content and the remaining input.  An escape passes the escaped character
through (none of the canned bodies contain escape sequences). -/
def parseStringChars : List Char → Option (List Char × List Char)
  | [] => none
  | '"' :: cs => some ([], cs)
  | '\\' :: d :: ds => (parseStringChars ds).map fun p => (d :: p.1, p.2)
  | '\\' :: [] => none
  | c :: cs => (parseStringChars cs).map fun p => (c :: p.1, p.2)

/-- Take a maximal run of decimal digits. -/
def takeDigits : List Char → List Char × List Char
  | [] => ([], [])
  | c :: cs =>
    if c.isDigit then
      let p := takeDigits cs
      (c :: p.1, p.2)
    else ([], c :: cs)

/-- Numeric value of a digit run. -/
def digitsVal (ds : List Char) : Nat :=
  ds.foldl (fun acc c => acc * 10 + (c.toNat - 48)) 0

/-- Parsing modes: a single value, the members of an object (after the
opening brace, up to and including the closing brace), or the elements of
an array (after the opening bracket, up to and including the closing
bracket). -/
inductive PMode where
  | val
  | members
  | elems

/-- Parsing results, one constructor per mode. -/
inductive PRes where
  | val (v : Json)
  | members (ms : List (String × Json))
  | elems (es : List Json)

/-- The fuelled recursive-descent parser.  Fuel decreases on every
recursive call, so the recursion is structural and evaluation is by
kernel reduction. -/
def parseF : Nat → PMode → List Char → Option (PRes × List Char)
  | 0, _, _ => none
  | fuel+1, PMode.val, cs =>
    match skipWs cs with
    | [] => none
    | '"' :: rest =>
      (parseStringChars rest).map fun p => (PRes.val (Json.str (String.mk p.1)), p.2)
    | '\x7b' :: rest =>
      match skipWs rest with
      | '\x7d' :: r2 => some (PRes.val (Json.obj []), r2)
      | _ =>
        match parseF fuel PMode.members rest with
        | some (PRes.members ms, r2) => some (PRes.val (Json.obj ms), r2)
        | _ => none
    | '[' :: rest =>
      match skipWs rest with
      | ']' :: r2 => some (PRes.val (Json.arr []), r2)
      | _ =>
        match parseF fuel PMode.elems rest with
        | some (PRes.elems es, r2) => some (PRes.val (Json.arr es), r2)
        | _ => none
    | 't' :: 'r' :: 'u' :: 'e' :: rest => some (PRes.val (Json.bool true), rest)
    | 'f' :: 'a' :: 'l' :: 's' :: 'e' :: rest => some (PRes.val (Json.bool false), rest)
    | 'n' :: 'u' :: 'l' :: 'l' :: rest => some (PRes.val Json.null, rest)
    | '-' :: rest =>
      match takeDigits rest with
      | ([], _) => none
      | (ds, r2) => some (PRes.val (Json.int (-(digitsVal ds : Int))), r2)
    | c :: rest =>
      if c.isDigit then
        match takeDigits (c :: rest) with
        | ([], _) => none
        | (ds, r2) => some (PRes.val (Json.int (digitsVal ds)), r2)
      else none
  | fuel+1, PMode.members, cs =>
    match skipWs cs with
    | '"' :: rest =>
      match parseStringChars rest with
      | none => none
      | some (key, r1) =>
        match skipWs r1 with
        | ':' :: r2 =>
          match parseF fuel PMode.val r2 with
          | some (PRes.val v, r3) =>
            match skipWs r3 with
            | ',' :: r4 =>
              match parseF fuel PMode.members r4 with
              | some (PRes.members ms, r5) =>
                some (PRes.members ((String.mk key, v) :: ms), r5)
              | _ => none
            | '\x7d' :: r4 => some (PRes.members [(String.mk key, v)], r4)
            | _ => none
          | _ => none
        | _ => none
    | _ => none
  | fuel+1, PMode.elems, cs =>
    match parseF fuel PMode.val cs with
    | some (PRes.val v, r1) =>
      match skipWs r1 with
      | ',' :: r2 =>
        match parseF fuel PMode.elems r2 with
        | some (PRes.elems es, r3) => some (PRes.elems (v :: es), r3)
        | _ => none
      | ']' :: r2 => some (PRes.elems [v], r2)
      | _ => none
    | _ => none

/-- Embedding of json.loads: parse one value and require the rest of the
input to be whitespace; any failure raises json.JSONDecodeError. -/
def json_loads (s : String) : Except PyExc Json :=
  match parseF (2 * s.length + 8) PMode.val s.toList with
  | some (PRes.val v, rest) =>
    match skipWs rest with
    | [] => Except.ok v
    | _ => Except.error ⟨ExcKind.jsonDecodeError, "Extra data"⟩
  | _ => Except.error ⟨ExcKind.jsonDecodeError, "Expecting value"⟩

/-- Embedding of models.APIResponse (fields raw_body, status_code and the
_parsed cache, initially None). -/
structure APIResponse where
  raw_body : String
  status_code : Nat
  _parsed : Option Json

/-- Embedding of models.APIResponse.json (lines 154-157): parse raw_body
with json.loads unless a parse is already cached. -/
def APIResponse.json (r : APIResponse) : Except PyExc Json :=
  match r._parsed with
  | some v => Except.ok v
  | none => json_loads r.raw_body

/-- The canned third-party bodies of services.fetch_integration_data
(literal braces written with their character codes). -/
def raw_responses : List (String × String) :=
  [("slack", "\x7b\"ok\": true, \"channel\": \"#general\"\x7d"),
   ("jira", "\x7b\"issues\": [\x7b\"key\": \"BUG-1\", \"summary\": \"Fix login\"\x7d]\x7d"),
   ("webhook", "\x7b\"event\": \"push\", \"ref\": \"main\", timestamp: 1700000000\x7d")]

/-- Embedding of services.fetch_integration_data (lines 170-180):
dict.get with the default body, then APIResponse(raw).json(). -/
def fetch_integration_data (service_name : String) : Except PyExc Json :=
  let raw := (raw_responses.lookup service_name).getD "\x7b\"status\": \"unknown\"\x7d"
  (APIResponse.mk raw 200 none).json

/-
The data model of models.py and the sample database seeded by
services._seed_data, embedded in its post-seeding state.
-/

/-- Embedding of models.User.  __init__ sets preferences = None and
last_name = None; _seed_data later assigns user 1 a preferences dict. -/
structure User where
  user_id : Nat
  name : String
  email : String
  role : String
  preferences : Option (List (String × Json))
  last_name : Option String

/-- Embedding of models.User.get_display_name (lines 20-22):
self.name + " " + self.last_name.  Concatenating a str with None raises
TypeError in CPython. -/
def User.get_display_name (u : User) : Except PyExc String :=
  match u.last_name with
  | some ln => Except.ok (u.name ++ " " ++ ln)
  | none =>
    Except.error ⟨ExcKind.typeError, "can only concatenate str (not \"NoneType\") to str"⟩

/-- Embedding of models.Task.  comments and history start empty and no
code path appends to them. -/
structure Task where
  task_id : String
  title : String
  description : String
  assignee : Option User
  tags : List String
  priority : Int
  comments : List Json
  history : List Json

/-- Embedding of models.Task.to_dict (lines 48-56). -/
def Task.to_dict (t : Task) : Json :=
  Json.obj [("id", Json.str t.task_id),
            ("title", Json.str t.title),
            ("description", Json.str t.description),
            ("assignee", match t.assignee with
                         | some u => Json.str u.name
                         | none => Json.null),
            ("tags", Json.arr (t.tags.map Json.str)),
            ("priority", Json.int t.priority)]

/-- Embedding of models.Project.  settings starts as the empty dict and no
code path writes to it; the only read uses .get with an int default, so the
dict is embedded at type List (String × Int). -/
structure Project where
  project_id : String
  name : String
  owner : User
  tasks : List Task
  members : List User
  settings : List (String × Int)

/-- User 1 of services._users after _seed_data ran. -/
def alice : User :=
  ⟨1, "Alice Chen", "alice@example.com", "admin",
   some [("theme", Json.str "dark"), ("language", Json.str "en")], none⟩

/-- User 2 of services._users (preferences kept None by _seed_data). -/
def bob : User :=
  ⟨2, "Bob Martinez", "bob@example.com", "member", none, none⟩

/-- User 3 of services._users (preferences kept None by _seed_data). -/
def charlie : User :=
  ⟨3, "Charlie Kim", "charlie@example.com", "member", none, none⟩

/-- Embedding of the services._users dict. -/
def _users : List (Nat × User) :=
  [(1, alice), (2, bob), (3, charlie)]

/-- TASK-101 of _seed_data. -/
def task101 : Task :=
  ⟨"TASK-101", "Set up CI pipeline", "Configure GitHub Actions",
   some bob, ["devops", "ci"], 1, [], []⟩

/-- TASK-102 of _seed_data. -/
def task102 : Task :=
  ⟨"TASK-102", "Design landing page", "Create mockups in Figma",
   some charlie, ["design"], 1, [], []⟩

/-- TASK-103 of _seed_data: unassigned. -/
def task103 : Task :=
  ⟨"TASK-103", "Write API docs", "Document all REST endpoints",
   none, ["docs"], 1, [], []⟩

/-- The project "proj-1" of _seed_data. -/
def proj1 : Project :=
  ⟨"proj-1", "BugBoy Demo", alice, [task101, task102, task103],
   [alice, bob, charlie], []⟩

/-- Embedding of the services._projects dict after seeding. -/
def _projects : List (String × Project) :=
  [("proj-1", proj1)]

/-- Embedding of services.get_user (line 55-56). -/
def get_user (user_id : Nat) : Option User :=
  _users.lookup user_id

/-- Embedding of services.get_user_display_name (lines 59-63).  Calling a
method on the None returned for an unknown id would raise AttributeError. -/
def get_user_display_name (user_id : Nat) : Except PyExc String :=
  match get_user user_id with
  | some user => user.get_display_name
  | none =>
    Except.error ⟨ExcKind.attributeError,
      "\x27NoneType\x27 object has no attribute \x27get_display_name\x27"⟩

/-- dict.get with a default on the int-valued settings dict. -/
def dict_get_int (d : List (String × Int)) (k : String) (dflt : Int) : Int :=
  (d.lookup k).getD dflt

/-- Python true division on ints: raises ZeroDivisionError on a zero
denominator, otherwise yields the exact quotient (floats abstracted as
rationals; the values in play are exact). -/
def pyDiv (a b : Int) : Except PyExc Rat :=
  if b = 0 then Except.error ⟨ExcKind.zeroDivisionError, "division by zero"⟩
  else Except.ok ((a : Rat) / (b : Rat))

/-- Embedding of services.generate_velocity_report (lines 123-130). -/
def generate_velocity_report (project_id : String) (sprint_points : Int) :
    Except PyExc (Option Json) :=
  match _projects.lookup project_id with
  | none => Except.ok none
  | some project =>
    let days_in_sprint := dict_get_int project.settings "sprint_length_days" 0
    match pyDiv sprint_points days_in_sprint with
    | Except.error e => Except.error e
    | Except.ok velocity =>
      Except.ok (some (Json.obj [("velocity_per_day", Json.num velocity),
                                 ("total_points", Json.int sprint_points)]))

/-
Route handlers of app.py.  A query parameter read with
request.args.get(key, default, type=int) is embedded as an Option argument
whose None case takes the route's default.
-/

/-- Embedding of app.py trigger_type_error (lines 212-220); user_id
defaults to 2. -/
def trigger_type_error (user_id_arg : Option Nat) : Except PyExc Json :=
  let user_id := user_id_arg.getD 2
  match get_user_display_name user_id with
  | Except.ok display_name => Except.ok (Json.obj [("display_name", Json.str display_name)])
  | Except.error e => Except.error e

/-- Embedding of app.py trigger_zero_division (lines 244-252); points
defaults to 42, and jsonify(None) serialises to JSON null. -/
def trigger_zero_division (points_arg : Option Int) : Except PyExc Json :=
  let sprint_points := points_arg.getD 42
  match generate_velocity_report "proj-1" sprint_points with
  | Except.error e => Except.error e
  | Except.ok (some report) => Except.ok report
  | Except.ok none => Except.ok Json.null

/-- Query-string arguments of a request, as Flask hands them to a handler
that chooses not to read them. -/
abbrev Args := List (String × String)

/-- Embedding of the static BUGS registry of app.py (lines 37-172), one
dict per triggerable bug (apostrophes written with their character code). -/
def BUGS : List Json :=
  [Json.obj [("id", Json.str "type-error"), ("name", Json.str "TypeError"),
     ("route", Json.str "/trigger/type-error"), ("method", Json.str "GET"),
     ("description", Json.str "Format a user\x27s full display name — fails because last_name is None (can\x27t concatenate str and NoneType)."),
     ("category", Json.str "TypeError")],
   Json.obj [("id", Json.str "key-error"), ("name", Json.str "KeyError"),
     ("route", Json.str "/trigger/key-error"), ("method", Json.str "GET"),
     ("description", Json.str "Load notification settings for a user whose preferences dict is missing the \x27notifications\x27 key."),
     ("category", Json.str "KeyError / AttributeError")],
   Json.obj [("id", Json.str "attribute-error"), ("name", Json.str "AttributeError"),
     ("route", Json.str "/trigger/attribute-error"), ("method", Json.str "GET"),
     ("description", Json.str "Look up the assignee\x27s email for an unassigned task — accessing .email on None raises AttributeError."),
     ("category", Json.str "AttributeError")],
   Json.obj [("id", Json.str "zero-division"), ("name", Json.str "ZeroDivisionError"),
     ("route", Json.str "/trigger/zero-division"), ("method", Json.str "GET"),
     ("description", Json.str "Generate a velocity report where sprint_length_days defaults to 0, causing division by zero."),
     ("category", Json.str "ZeroDivisionError")],
   Json.obj [("id", Json.str "index-error"), ("name", Json.str "IndexError"),
     ("route", Json.str "/trigger/index-error"), ("method", Json.str "GET"),
     ("description", Json.str "Retrieve the latest comment on a task that has no comments — list index out of range."),
     ("category", Json.str "IndexError")],
   Json.obj [("id", Json.str "file-not-found"), ("name", Json.str "FileNotFoundError"),
     ("route", Json.str "/trigger/file-not-found"), ("method", Json.str "GET"),
     ("description", Json.str "Load a project config file from disk that doesn\x27t exist."),
     ("category", Json.str "FileNotFoundError")],
   Json.obj [("id", Json.str "json-decode-error"), ("name", Json.str "JSONDecodeError"),
     ("route", Json.str "/trigger/json-decode-error"), ("method", Json.str "GET"),
     ("description", Json.str "Parse a webhook response from a third-party service that returns malformed JSON."),
     ("category", Json.str "JSONDecodeError")],
   Json.obj [("id", Json.str "unicode-decode-error"), ("name", Json.str "UnicodeDecodeError"),
     ("route", Json.str "/trigger/unicode-decode-error"), ("method", Json.str "POST"),
     ("description", Json.str "Process an incoming webhook payload containing invalid UTF-8 byte sequences."),
     ("category", Json.str "UnicodeDecodeError")],
   Json.obj [("id", Json.str "recursion-error"), ("name", Json.str "RecursionError"),
     ("route", Json.str "/trigger/recursion-error"), ("method", Json.str "GET"),
     ("description", Json.str "Flatten a category tree that has an accidental circular parent→child reference."),
     ("category", Json.str "RecursionError")],
   Json.obj [("id", Json.str "connection-error"), ("name", Json.str "ConnectionError"),
     ("route", Json.str "/trigger/connection-error"), ("method", Json.str "GET"),
     ("description", Json.str "Attempt to connect to an internal database host that is unreachable."),
     ("category", Json.str "ConnectionError")],
   Json.obj [("id", Json.str "value-error"), ("name", Json.str "ValueError"),
     ("route", Json.str "/trigger/value-error"), ("method", Json.str "POST"),
     ("description", Json.str "Import tasks from CSV where the priority column contains a non-numeric string."),
     ("category", Json.str "ValueError")],
   Json.obj [("id", Json.str "permission-error"), ("name", Json.str "PermissionError"),
     ("route", Json.str "/trigger/permission-error"), ("method", Json.str "GET"),
     ("description", Json.str "Export project data to a file that was locked read-only by a previous backup job."),
     ("category", Json.str "PermissionError")],
   Json.obj [("id", Json.str "timeout-error"), ("name", Json.str "TimeoutError"),
     ("route", Json.str "/trigger/timeout-error"), ("method", Json.str "GET"),
     ("description", Json.str "Run a slow aggregation query that exceeds the configured timeout threshold."),
     ("category", Json.str "TimeoutError")],
   Json.obj [("id", Json.str "thread-error"), ("name", Json.str "Unhandled Thread Exception"),
     ("route", Json.str "/trigger/thread-error"), ("method", Json.str "GET"),
     ("description", Json.str "Fire a background notification job whose handler crashes — exception surfaces via threading.excepthook."),
     ("category", Json.str "Unhandled Thread Exception")],
   Json.obj [("id", Json.str "memory-error"), ("name", Json.str "MemoryError"),
     ("route", Json.str "/trigger/memory-error"), ("method", Json.str "POST"),
     ("description", Json.str "Submit an extremely large bulk-import payload that causes excessive memory consumption."),
     ("category", Json.str "MemoryError")]]

/-- Embedding of app.py list_bugs (lines 204-207): jsonify(BUGS).  The
handler takes the request arguments but does not read them. -/
def list_bugs (_r : Args) : Except PyExc Json :=
  Except.ok (Json.arr BUGS)

/-- Embedding of app.py health (lines 391-393). -/
def health (_r : Args) : Except PyExc Json :=
  Except.ok (Json.obj [("status", Json.str "ok"), ("app", Json.str "bugboy-python")])

/-- Field names of a JSON object, in order. -/
def objFieldNames (j : Json) : List String :=
  match j with
  | Json.obj fs => fs.map Prod.fst
  | _ => []

/-- String value of a named field of a JSON object. -/
def objStrField (j : Json) (k : String) : Option String :=
  match j with
  | Json.obj fs =>
    match fs.lookup k with
    | some (Json.str s) => some s
    | _ => none
  | _ => none

/-
models.CategoryTree is a mutable object graph: after
services.build_recursive_categories runs child.children.append(root), the
graph is cyclic and cannot be an inductive tree.  It is embedded as an
explicit heap of nodes addressed by index, and CategoryTree.flatten as a
fuelled traversal in which the fuel plays the role of the CPython call
stack budget: an exhausted fuel is a raised RecursionError.
-/

/-- A CategoryTree node in the heap: name, parent address, child
addresses. -/
structure CatNode where
  name : String
  parent : Option Nat
  children : List Nat

/-- Traversal modes of the fuelled flatten: one address, or a child list. -/
inductive FMode where
  | node (addr : Nat)
  | kids (addrs : List Nat)

/-- Embedding of models.CategoryTree.flatten (lines 138-143) over an
explicit heap: result = [self.name] and then, for each child in order,
result.extend(child.flatten()).  Fuel decreases on every recursive call;
`none` means the traversal exhausted the recursion budget. -/
def flattenF (h : List CatNode) : Nat → FMode → Option (List String)
  | 0, _ => none
  | fuel+1, FMode.node addr =>
    match h.get? addr with
    | none => some []
    | some node => (flattenF h fuel (FMode.kids node.children)).map (node.name :: ·)
  | _fuel+1, FMode.kids [] => some []
  | fuel+1, FMode.kids (c :: cs) =>
    match flattenF h fuel (FMode.node c) with
    | none => none
    | some ys =>
      match flattenF h fuel (FMode.kids cs) with
      | none => none
      | some zs => some (ys ++ zs)

/-- flatten of the node at `addr`, within recursion budget `fuel`. -/
def flatten (h : List CatNode) (fuel : Nat) (addr : Nat) : Option (List String) :=
  flattenF h fuel (FMode.node addr)

/-- The heap built by services.build_recursive_categories (lines 237-243):
root = CategoryTree("Root") at address 0; child = root.add_child("Child")
at address 1, so root.children = [1]; then child.children.append(root)
makes child.children = [0]. -/
def recursiveHeap : List CatNode :=
  [⟨"Root", none, [1]⟩, ⟨"Child", some 0, [0]⟩]

/-- Embedding of services.build_recursive_categories (lines 237-243):
build the cyclic heap and return root.flatten() under the interpreter
recursion budget `fuel`. -/
def build_recursive_categories (fuel : Nat) : Option (List String) :=
  flatten recursiveHeap fuel 0

/-- Interpreter state visible to utils.py: the sys recursion limit. -/
structure Interp where
  recursionLimit : Nat

/-- Embedding of sys.getrecursionlimit(). -/
def sys_getrecursionlimit (s : Interp) : Nat :=
  s.recursionLimit

/-- Embedding of sys.setrecursionlimit(n). -/
def sys_setrecursionlimit (n : Nat) (_s : Interp) : Interp :=
  ⟨n⟩

/-- Embedding of utils.set_recursion_limit_for_deep_trees (lines 27-32):
save the original limit, lower the limit to 50, return the original. -/
def set_recursion_limit_for_deep_trees (s : Interp) : Nat × Interp :=
  let original := sys_getrecursionlimit s
  (original, sys_setrecursionlimit 50 s)

/-- Embedding of utils.restore_recursion_limit (lines 35-36). -/
def restore_recursion_limit (original : Nat) (s : Interp) : Interp :=
  sys_setrecursionlimit original s

/-- Embedding of app.py trigger_recursion_error (lines 298-309): lower the
recursion limit, try to flatten the cyclic category tree, and restore the
limit in a finally block.  The try body is evaluated first and the finally
update applies to the state either way, exactly as in the source. -/
def trigger_recursion_error (s : Interp) : Except PyExc Json × Interp :=
  let p := set_recursion_limit_for_deep_trees s
  let original_limit := p.1
  let s1 := p.2
  let res : Except PyExc Json :=
    match build_recursive_categories s1.recursionLimit with
    | some categories =>
      Except.ok (Json.obj [("categories", Json.arr (categories.map Json.str))])
    | none =>
      Except.error ⟨ExcKind.recursionError, "maximum recursion depth exceeded"⟩
  (res, restore_recursion_limit original_limit s1)

/-
services.run_with_timeout runs func on one worker thread and joins it with
a deadline.  The worker is abstracted by how long func runs and what it
produces: `duration` in seconds, and its outcome (the wrapper stores a
raised exception in error[0] and the route re-raises it).
-/

/-- A function handed to run_with_timeout, abstracted by its running time
in seconds and its result or raised exception. -/
structure WorkerFunc (α : Type) where
  duration : Nat
  outcome : Except PyExc α

/-- Observable thread bookkeeping of one run_with_timeout call. -/
structure TimeoutTrace where
  threadsSpawned : Nat
  joinDeadline : Nat
  workerAbandoned : Bool

/-- Embedding of services.run_with_timeout (lines 285-308): start one
worker thread, thread.join(timeout=timeout_sec), and if the thread is
still alive raise TimeoutError, leaving the worker running
(workerAbandoned); otherwise re-raise the worker's stored exception or
return its result.  The thread is still alive after the join exactly when
func's duration exceeds the deadline. -/
def run_with_timeout {α : Type} (func : WorkerFunc α) (timeout_sec : Nat) :
    Except PyExc α × TimeoutTrace :=
  if timeout_sec < func.duration then
    (Except.error ⟨ExcKind.timeoutError,
       "Operation timed out after " ++ toString timeout_sec ++ "s"⟩,
     ⟨1, timeout_sec, true⟩)
  else
    (func.outcome, ⟨1, timeout_sec, false⟩)

/-- Embedding of services.slow_aggregation_query (lines 311-314):
time.sleep(10) then return the result dict. -/
def slow_aggregation_query : WorkerFunc Json :=
  ⟨10, Except.ok (Json.obj [("result", Json.str "done")])⟩

/-
On-disk state, for the write path of services.write_export_file.  The
export directory and file live under the application directory; paths are
embedded relative to it.
-/

/-- A file on disk: content and whether its mode is read-only (0444). -/
structure FileState where
  content : Json
  readonly : Bool

/-- The filesystem: which directories exist and what each path holds. -/
structure FS where
  dirExists : String → Bool
  files : String → Option FileState

/-- A filesystem with no application files. -/
def emptyFS : FS :=
  ⟨fun _ => false, fun _ => none⟩

/-- Embedding of os.makedirs(dir, exist_ok=True). -/
def os_makedirs (fs : FS) (dir : String) : FS :=
  ⟨fun p => if p = dir then true else fs.dirExists p, fs.files⟩

/-- Embedding of os.chmod(path, 0o444) on an existing file. -/
def os_chmod_readonly (fs : FS) (path : String) : FS :=
  ⟨fs.dirExists,
   fun p => if p = path then (fs.files path).map (fun st => ⟨st.content, true⟩)
            else fs.files p⟩

/-- Write a file (open(path, "w") followed by json.dump), leaving it
writable. -/
def fs_write (fs : FS) (path : String) (j : Json) : FS :=
  ⟨fs.dirExists, fun p => if p = path then some ⟨j, false⟩ else fs.files p⟩

/-- Embedding of services.write_export_file (lines 144-163): create the
export directory, create a placeholder export if the path does not exist,
chmod it read-only, then attempt to overwrite it — which raises
PermissionError because the file is read-only. -/
def write_export_file (project_id : String) (data : Json) (fs : FS) :
    Except PyExc String × FS :=
  let export_dir := ".exports"
  let fs1 := os_makedirs fs export_dir
  let export_path := export_dir ++ "/" ++ project_id ++ ".json"
  let fs2 :=
    if (fs1.files export_path).isSome then fs1
    else fs_write fs1 export_path (Json.obj [("placeholder", Json.bool true)])
  let fs3 := os_chmod_readonly fs2 export_path
  match fs3.files export_path with
  | some st =>
    if st.readonly then
      (Except.error ⟨ExcKind.permissionError,
         "[Errno 13] Permission denied: \x27" ++ export_path ++ "\x27"⟩, fs3)
    else (Except.ok export_path, fs_write fs3 export_path data)
  | none => (Except.ok export_path, fs_write fs3 export_path data)

/-- Embedding of app.py trigger_permission_error (lines 335-344):
serialise the tasks of proj-1 and hand them to write_export_file. -/
def trigger_permission_error (fs : FS) : Except PyExc Json × FS :=
  match _projects.lookup "proj-1" with
  | none =>
    (Except.error ⟨ExcKind.attributeError,
       "\x27NoneType\x27 object has no attribute \x27tasks\x27"⟩, fs)
  | some project =>
    let task_data := Json.arr (project.tasks.map Task.to_dict)
    match write_export_file "proj-1" task_data fs with
    | (Except.ok path, fs2) =>
      (Except.ok (Json.obj [("exported_to", Json.str path)]), fs2)
    | (Except.error e, fs2) => (Except.error e, fs2)

/-
Theorems.
-/

/-- On the cyclic heap of build_recursive_categories, flatten exhausts any
recursion budget, from the root, from the child, and from either child
list: root and child each require flattening the other first. -/
theorem flatten_cycle_none (fuel : Nat) :
    flattenF recursiveHeap fuel (FMode.node 0) = none ∧
    flattenF recursiveHeap fuel (FMode.node 1) = none ∧
    flattenF recursiveHeap fuel (FMode.kids [1]) = none ∧
    flattenF recursiveHeap fuel (FMode.kids [0]) = none := by
  induction fuel with
  | zero => exact ⟨rfl, rfl, rfl, rfl⟩
  | succ f ih =>
    obtain ⟨h0, h1, hk1, hk0⟩ := ih
    refine ⟨?_, ?_, ?_, ?_⟩
    · show (flattenF recursiveHeap f (FMode.kids [1])).map ("Root" :: ·) = none
      rw [hk1]; rfl
    · show (flattenF recursiveHeap f (FMode.kids [0])).map ("Child" :: ·) = none
      rw [hk0]; rfl
    · show (match flattenF recursiveHeap f (FMode.node 1) with
            | none => none
            | some ys =>
              match flattenF recursiveHeap f (FMode.kids []) with
              | none => none
              | some zs => some (ys ++ zs)) = none
      rw [h1]
    · show (match flattenF recursiveHeap f (FMode.node 0) with
            | none => none
            | some ys =>
              match flattenF recursiveHeap f (FMode.kids []) with
              | none => none
              | some zs => some (ys ++ zs)) = none
      rw [h0]

/-- Claim C1: every exception e that reaches handle_exception produces a
status-500 response whose JSON body has exactly the fields error (the
exception class name), message (str(e)) and traceback (a string), no
matter which route handler raised it. -/
theorem handle_exception_shape (h : Except PyExc Json) (tb : String) (e : PyExc)
    (he : h = Except.error e) :
    runRoute h tb = ⟨500, Json.obj [("error", Json.str e.kind.name),
      ("message", Json.str e.msg), ("traceback", Json.str tb)]⟩ := by
  subst he
  rfl

/-- Witness for handle_exception_shape at a concrete exception. -/
theorem handle_exception_shape_witness :
    runRoute (Except.error ⟨ExcKind.typeError, "boom"⟩) "tb-text" =
      ⟨500, Json.obj [("error", Json.str "TypeError"), ("message", Json.str "boom"),
        ("traceback", Json.str "tb-text")]⟩ :=
  handle_exception_shape _ "tb-text" ⟨ExcKind.typeError, "boom"⟩ rfl

/-- Claim C2: GET /trigger/type-error with the default user_id of 2 hits a
user whose last_name is None (as is every seeded user's), so
get_display_name raises TypeError and the global handler turns it into a
500 JSON response naming TypeError. -/
theorem trigger_type_error_response :
    (_users.all fun p => p.2.last_name.isNone) = true ∧
    trigger_type_error none = trigger_type_error (some 2) ∧
    trigger_type_error none =
      Except.error ⟨ExcKind.typeError, "can only concatenate str (not \"NoneType\") to str"⟩ ∧
    ∀ tb, runRoute (trigger_type_error none) tb =
      ⟨500, Json.obj [("error", Json.str "TypeError"),
        ("message", Json.str "can only concatenate str (not \"NoneType\") to str"),
        ("traceback", Json.str tb)]⟩ :=
  ⟨rfl, rfl, rfl, fun _ => rfl⟩

/-- Claim C3: GET /trigger/zero-division with the default of 42 points
reads sprint_length_days from the empty settings of proj-1 with default 0,
so the division raises ZeroDivisionError and the global handler turns it
into a 500 JSON response naming ZeroDivisionError. -/
theorem trigger_zero_division_response :
    proj1.settings = [] ∧
    dict_get_int proj1.settings "sprint_length_days" 0 = 0 ∧
    trigger_zero_division none =
      Except.error ⟨ExcKind.zeroDivisionError, "division by zero"⟩ ∧
    ∀ tb, runRoute (trigger_zero_division none) tb =
      ⟨500, Json.obj [("error", Json.str "ZeroDivisionError"),
        ("message", Json.str "division by zero"), ("traceback", Json.str tb)]⟩ :=
  ⟨rfl, rfl, rfl, fun _ => rfl⟩

/-- Claim C4: GET /api/bugs returns the static BUGS catalog as JSON on
every invocation: 15 entries, one per scenario id, each carrying exactly
the fields id, name, route, method, description and category. -/
theorem list_bugs_static_catalog :
    (∀ r r' : Args, list_bugs r = list_bugs r') ∧
    (∀ r : Args, list_bugs r = Except.ok (Json.arr BUGS)) ∧
    BUGS.length = 15 ∧
    (BUGS.all fun b =>
      objFieldNames b == ["id", "name", "route", "method", "description", "category"]) = true ∧
    BUGS.map (fun b => (objStrField b "id").getD "") =
      ["type-error", "key-error", "attribute-error", "zero-division", "index-error",
       "file-not-found", "json-decode-error", "unicode-decode-error", "recursion-error",
       "connection-error", "value-error", "permission-error", "timeout-error",
       "thread-error", "memory-error"] :=
  ⟨fun _ _ => rfl, fun _ => rfl, rfl, rfl, rfl⟩

/-- Claim C5: GET /health always succeeds with the fixed payload
status = ok, app = bugboy-python, whatever the request arguments. -/
theorem health_static_ok :
    (∀ r r' : Args, health r = health r') ∧
    ∀ (r : Args) (tb : String), runRoute (health r) tb =
      ⟨200, Json.obj [("status", Json.str "ok"), ("app", Json.str "bugboy-python")]⟩ :=
  ⟨fun _ _ => rfl, fun _ _ => rfl⟩

/-- Claim C6: build_recursive_categories links the two-node category tree
into a cycle (the root's child list holds the child, whose child list
holds the root back), and flatten on it yields no result under any
recursion budget. -/
theorem recursive_categories_flatten_diverges :
    ((recursiveHeap.get? 0).map CatNode.children = some [1]) ∧
    ((recursiveHeap.get? 1).map CatNode.children = some [0]) ∧
    ∀ fuel, build_recursive_categories fuel = none :=
  ⟨rfl, rfl, fun fuel => (flatten_cycle_none fuel).1⟩

/-- Claim C7: run_with_timeout spawns exactly one worker thread, joins it
with the given deadline, raises TimeoutError and abandons the worker when
the worker outlives the deadline, and otherwise propagates the worker's
result or re-raises its exception. -/
theorem run_with_timeout_spec {α : Type} (func : WorkerFunc α) (timeout_sec : Nat) :
    (run_with_timeout func timeout_sec).2.threadsSpawned = 1 ∧
    (run_with_timeout func timeout_sec).2.joinDeadline = timeout_sec ∧
    (run_with_timeout func timeout_sec).2.workerAbandoned =
      decide (timeout_sec < func.duration) ∧
    (run_with_timeout func timeout_sec).1 =
      (if timeout_sec < func.duration then
         Except.error ⟨ExcKind.timeoutError,
           "Operation timed out after " ++ toString timeout_sec ++ "s"⟩
       else func.outcome) := by
  by_cases h : timeout_sec < func.duration <;>
    simp [run_with_timeout, h]

/-- Claim C8 counterexample: starting from a filesystem without the
application's export file, GET /trigger/permission-error leaves behind
.exports/proj-1.json, on-disk state that survives the request — so it is
false that no route creates persisted state. -/
theorem persisted_state_counterexample :
    ((trigger_permission_error emptyFS).2.files ".exports/proj-1.json").isSome = true ∧
    (emptyFS.files ".exports/proj-1.json").isSome = false ∧
    (trigger_permission_error emptyFS).2 ≠ emptyFS := by
  refine ⟨rfl, rfl, fun h => ?_⟩
  have h2 := congrArg (fun fs : FS => (fs.files ".exports/proj-1.json").isSome) h
  exact absurd h2 (by decide)

/-- Claim C8 amended: /trigger/permission-error always fails with
PermissionError, and it persists on-disk state: after the request the
.exports directory exists and .exports/proj-1.json is present and
read-only (created as a placeholder when absent). -/
theorem trigger_permission_error_effect (fs : FS) :
    (trigger_permission_error fs).1 =
      Except.error ⟨ExcKind.permissionError,
        "[Errno 13] Permission denied: \x27.exports/proj-1.json\x27"⟩ ∧
    (trigger_permission_error fs).2.dirExists ".exports" = true ∧
    ((trigger_permission_error fs).2.files ".exports/proj-1.json").isSome = true ∧
    ((trigger_permission_error fs).2.files ".exports/proj-1.json").map
      FileState.readonly = some true := by
  have hp : (".exports" ++ "/" ++ "proj-1" ++ ".json" : String) = ".exports/proj-1.json" := rfl
  cases h : fs.files ".exports/proj-1.json" with
  | none =>
    simp [trigger_permission_error, write_export_file, os_makedirs, os_chmod_readonly,
          fs_write, _projects, List.lookup, hp, h]
  | some st =>
    simp [trigger_permission_error, write_export_file, os_makedirs, os_chmod_readonly,
          fs_write, _projects, List.lookup, hp, h]

/-- Claim C9: GET /trigger/recursion-error lowers the recursion limit to
50, the flattening of the cyclic category tree raises RecursionError, and
the finally block restores the limit to its pre-request value. -/
theorem trigger_recursion_error_restores_limit (s : Interp) :
    (trigger_recursion_error s).2.recursionLimit = s.recursionLimit ∧
    (trigger_recursion_error s).1 =
      Except.error ⟨ExcKind.recursionError, "maximum recursion depth exceeded"⟩ ∧
    (set_recursion_limit_for_deep_trees s).1 = s.recursionLimit ∧
    (set_recursion_limit_for_deep_trees s).2.recursionLimit = 50 :=
  ⟨rfl, rfl, rfl, rfl⟩

/-- Claim C10: fetch_integration_data raises JSONDecodeError exactly for
the service name webhook (whose canned body is malformed), parses the
slack and jira bodies, and yields the unknown-status dict for every other
service name. -/
theorem fetch_integration_data_spec :
    fetch_integration_data "slack" =
      Except.ok (Json.obj [("ok", Json.bool true), ("channel", Json.str "#general")]) ∧
    fetch_integration_data "jira" =
      Except.ok (Json.obj [("issues", Json.arr [Json.obj [("key", Json.str "BUG-1"),
        ("summary", Json.str "Fix login")]])]) ∧
    fetch_integration_data "webhook" =
      Except.error ⟨ExcKind.jsonDecodeError, "Expecting value"⟩ ∧
    (∀ service_name,
      isErrorExc (fetch_integration_data service_name) = true ↔ service_name = "webhook") ∧
    (∀ service_name, service_name ≠ "slack" → service_name ≠ "jira" →
      service_name ≠ "webhook" →
      fetch_integration_data service_name =
        Except.ok (Json.obj [("status", Json.str "unknown")])) := by
  have hdef : ∀ service_name, service_name ≠ "slack" → service_name ≠ "jira" →
      service_name ≠ "webhook" →
      fetch_integration_data service_name =
        Except.ok (Json.obj [("status", Json.str "unknown")]) := by
    intro n h1 h2 h3
    have hl : raw_responses.lookup n = none := by
      simp [raw_responses, List.lookup, beq_eq_false_iff_ne.mpr h1,
            beq_eq_false_iff_ne.mpr h2, beq_eq_false_iff_ne.mpr h3]
    unfold fetch_integration_data
    rw [hl]
    rfl
  refine ⟨rfl, rfl, rfl, ?_, hdef⟩
  intro n
  constructor
  · intro he
    by_contra hn
    by_cases h1 : n = "slack"
    · subst h1
      have hs : isErrorExc (fetch_integration_data "slack") = false := rfl
      rw [hs] at he
      exact Bool.noConfusion he
    · by_cases h2 : n = "jira"
      · subst h2
        have hj : isErrorExc (fetch_integration_data "jira") = false := rfl
        rw [hj] at he
        exact Bool.noConfusion he
      · rw [hdef n h1 h2 hn] at he
        exact Bool.noConfusion he
  · intro hw
    subst hw
    rfl

/-- Witness for fetch_integration_data_spec at a service name outside the
canned set. -/
theorem fetch_integration_data_spec_witness :
    fetch_integration_data "teams" =
      Except.ok (Json.obj [("status", Json.str "unknown")]) :=
  fetch_integration_data_spec.2.2.2.2 "teams" (by decide) (by decide) (by decide)

end BugBoy
